import Mathlib

/-!
Shallow embedding of the DigiVerifier repository's audio utilities
(src/utils/audioUtils.ts) and live-session bridge
(src/services/geminiLiveService.ts).

Byte sequences are lists of naturals below 256, audio samples and clock
times are exact rationals, and the stateful service class is modelled by
explicit state passing.
-/

namespace AudioUtils

/-- The base64 alphabet used by the platform btoa/atob pair that
arrayBufferToBase64 and base64ToArrayBuffer delegate to. -/
def b64Alphabet : List Char :=
  "ABCDEFGHIJKLMNOPQRSTUVWXYZabcdefghijklmnopqrstuvwxyz0123456789+/".toList

/-- The base64 digit character for a 6-bit value. -/
def b64Char (n : Nat) : Char := b64Alphabet.getD n '='

/-- The 6-bit value of a base64 digit character; none when the character
is not in the alphabet (atob raises InvalidCharacterError there). -/
def b64Index? (c : Char) : Option Nat :=
  let i := b64Alphabet.indexOf c
  if i < b64Alphabet.length then some i else none

/-- Embedding of arrayBufferToBase64 (src/utils/audioUtils.ts lines
22-30): the bytes of the buffer are turned into a binary string via
String.fromCharCode and encoded by btoa, i.e. standard base64 with
padding, three bytes to four digits. -/
def arrayBufferToBase64 : List Nat → List Char
  | [] => []
  | [b0] =>
      [b64Char (b0 / 4), b64Char (b0 % 4 * 16), '=', '=']
  | [b0, b1] =>
      [b64Char (b0 / 4), b64Char (b0 % 4 * 16 + b1 / 16), b64Char (b1 % 16 * 4), '=']
  | b0 :: b1 :: b2 :: rest =>
      b64Char (b0 / 4) :: b64Char (b0 % 4 * 16 + b1 / 16) ::
      b64Char (b1 % 16 * 4 + b2 / 64) :: b64Char (b2 % 64) :: arrayBufferToBase64 rest

/-- Embedding of base64ToArrayBuffer (src/utils/audioUtils.ts lines
33-41): atob decodes four base64 digits to three bytes, with trailing
padding allowed only at the end; a malformed input makes atob throw,
modelled by none. -/
def base64ToArrayBuffer : List Char → Option (List Nat)
  | [] => some []
  | c0 :: c1 :: c2 :: c3 :: rest =>
      match b64Index? c0, b64Index? c1 with
      | some d0, some d1 =>
        if c2 = '=' then
          if c3 = '=' ∧ rest = [] then some [d0 * 4 + d1 / 16] else none
        else
          match b64Index? c2 with
          | some d2 =>
            if c3 = '=' then
              if rest = [] then
                some [d0 * 4 + d1 / 16, d1 % 16 * 16 + d2 / 4]
              else none
            else
              match b64Index? c3 with
              | some d3 =>
                match base64ToArrayBuffer rest with
                | some tail =>
                    some ((d0 * 4 + d1 / 16) :: (d1 % 16 * 16 + d2 / 4) ::
                          (d2 % 4 * 64 + d3) :: tail)
                | none => none
              | none => none
          | none => none
      | _, _ => none
  | _ => none

/-- The lower source index read for output index i: the floor of the
source offset i * ratio, as the array subscript Math.floor(offset)
produces (src/utils/audioUtils.ts line 52). -/
def interpIndex (sampleRate : ℚ) (i : Nat) : Nat :=
  (⌊(i : ℚ) * (sampleRate / 16000)⌋).toNat

/-- The upper source index read for output index i, clamped to the last
valid index (src/utils/audioUtils.ts line 53). -/
def interpNextIndex (buffer : List ℚ) (sampleRate : ℚ) (i : Nat) : Nat :=
  min (interpIndex sampleRate i + 1) (buffer.length - 1)

/-- One interpolated output sample (src/utils/audioUtils.ts lines 50-56):
linear interpolation between the sample at the index below the source
offset and the one above it, weighted by the fractional part of the
offset; getD mirrors the array read. -/
def lerpSample (buffer : List ℚ) (sampleRate : ℚ) (i : Nat) : ℚ :=
  let offset := (i : ℚ) * (sampleRate / 16000)
  let index := interpIndex sampleRate i
  let fraction := offset - (index : ℚ)
  buffer.getD index 0 * (1 - fraction) +
    buffer.getD (interpNextIndex buffer sampleRate i) 0 * fraction

/-- Embedding of downsampleTo16000 (src/utils/audioUtils.ts lines
44-59): identity fast path when the source rate is exactly 16000,
otherwise a fresh block of ceil(length / ratio) interpolated samples. -/
def downsampleTo16000 (buffer : List ℚ) (sampleRate : ℚ) : List ℚ :=
  if sampleRate = 16000 then buffer
  else
    let ratio := sampleRate / 16000
    let newLength := ⌈(buffer.length : ℚ) / ratio⌉₊
    (List.range newLength).map (fun i => lerpSample buffer sampleRate i)

end AudioUtils

namespace GeminiLive

/-- Tool arguments are opaque to the bridge: it forwards call.args to the
matching callback unchanged. A JSON-ish association list stands in. -/
abbrev ToolArgs := List (String × String)

/-- One entry of toolCall.functionCalls in a LiveServerMessage. -/
structure FunctionCall where
  id : String
  name : String
  args : ToolArgs

/-- The shape of the responseResult object built by handleMessage
(src/services/geminiLiveService.ts lines 209-228): the generic ok
default, a status object, or the error object built in the catch arm. -/
inductive ResponseResult where
  | genericOk
  | status (s : String)
  | error (s : String)
deriving DecidableEq

/-- One functionResponses entry of a sendToolResponse message
(src/services/geminiLiveService.ts lines 231-239). -/
structure FunctionResponse where
  id : String
  name : String
  response : ResponseResult

/-- The external callback handlers (ToolCallbacks in src/types): each may
throw, modelled by Except; onVerifyDetails is awaited and yields the
verification outcome string. -/
structure ToolCallbacks where
  onSaveAadhar : ToolArgs → Except String Unit
  onSavePan : ToolArgs → Except String Unit
  onVerifyDetails : ToolArgs → Except String String
  onCreateDigilocker : ToolArgs → Except String Unit

/-- Embedding of one iteration of the functionCalls loop in handleMessage
(src/services/geminiLiveService.ts lines 207-240): responseResult starts
as the generic ok object, the recognized tool names dispatch to their
callbacks inside try, a throwing handler is caught and replaced by the
error payload, and the correlated response carries the invocation's id
and name. -/
def respondToCall (cb : ToolCallbacks) (call : FunctionCall) : FunctionResponse :=
  let responseResult :=
    if call.name = "saveAadhar" then
      match cb.onSaveAadhar call.args with
      | .ok _ => ResponseResult.status "Aadhar Saved. Proceed to PAN."
      | .error _ => ResponseResult.error "Failed to execute tool"
    else if call.name = "savePan" then
      match cb.onSavePan call.args with
      | .ok _ => ResponseResult.status "PAN Saved. Proceed to Verify."
      | .error _ => ResponseResult.error "Failed to execute tool"
    else if call.name = "verifyDetails" then
      match cb.onVerifyDetails call.args with
      | .ok r => ResponseResult.status r
      | .error _ => ResponseResult.error "Failed to execute tool"
    else if call.name = "createDigilocker" then
      match cb.onCreateDigilocker call.args with
      | .ok _ => ResponseResult.status "Account Created."
      | .error _ => ResponseResult.error "Failed to execute tool"
    else ResponseResult.genericOk
  { id := call.id, name := call.name, response := responseResult }

/-- The sequence of functionResponses entries sent while handleMessage
walks toolCall.functionCalls in array order, one sendToolResponse per
iteration. -/
def sendToolResponses (cb : ToolCallbacks) (calls : List FunctionCall) :
    List FunctionResponse :=
  calls.map (respondToCall cb)

/-- Number of 16-bit samples obtained from one inbound chunk, none when
queueAudio's try block throws before touching the cursor: atob rejects a
malformed base64 payload, the Int16Array view rejects an odd byte
length, and createBuffer rejects a zero-length buffer
(src/services/geminiLiveService.ts lines 299-303). -/
def decodeChunk (data : List Char) : Option Nat :=
  match AudioUtils.base64ToArrayBuffer data with
  | none => none
  | some bytes =>
      if bytes.length % 2 = 0 ∧ bytes.length ≠ 0 then some (bytes.length / 2) else none

/-- Embedding of the scheduling step of queueAudio
(src/services/geminiLiveService.ts lines 310-316): read the output
clock, snap the cursor up to it if it fell behind, start the source at
the cursor, advance the cursor by the buffer's duration. Returns the
scheduled start time and the new cursor. -/
def scheduleChunk (nextStartTime now d : ℚ) : ℚ × ℚ :=
  let cursor := if nextStartTime < now then now else nextStartTime
  (cursor, cursor + d)

/-- Embedding of queueAudio's effect on the playback cursor
(src/services/geminiLiveService.ts lines 287-320): a chunk that fails to
decode is caught and dropped, leaving the cursor unchanged; a decoded
chunk of n samples plays at 24000 Hz, so its duration is n / 24000. -/
def queueAudio (now : ℚ) (data : List Char) (nextStartTime : ℚ) : ℚ :=
  match decodeChunk data with
  | none => nextStartTime
  | some samples => (scheduleChunk nextStartTime now ((samples : ℚ) / 24000)).2

/-- Processing of a sequence of inbound chunks, each tagged with the
output clock's time at its arrival. -/
def processChunks : List (ℚ × List Char) → ℚ → ℚ
  | [], cursor => cursor
  | (now, data) :: rest, cursor => processChunks rest (queueAudio now data cursor)

/-- The inlineData field of a content part. -/
structure InlineData where
  data : Option (List Char)

/-- One part of a model turn. -/
structure Part where
  inlineData : Option InlineData

/-- The modelTurn structure of serverContent. -/
structure ModelTurn where
  parts : Option (List Part)

/-- The serverContent structure of a LiveServerMessage. -/
structure ServerContent where
  modelTurn : Option ModelTurn

/-- The two fields of LiveServerMessage that handleMessage reads. -/
structure LiveServerMessage where
  serverContent : Option ServerContent
  toolCall : Option (List FunctionCall)

/-- Embedding of the optional-chain
serverContent?.modelTurn?.parts?.[0]?.inlineData?.data
(src/services/geminiLiveService.ts line 199): only the first part of
the model turn is consulted. -/
def extractAudioData (m : LiveServerMessage) : Option (List Char) :=
  match m.serverContent with
  | none => none
  | some sc =>
    match sc.modelTurn with
    | none => none
    | some mt =>
      match mt.parts with
      | none => none
      | some parts =>
        match parts.head? with
        | none => none
        | some p =>
          match p.inlineData with
          | none => none
          | some d => d.data

/-- Embedding of handleMessage (src/services/geminiLiveService.ts lines
197-242): forward the first part's audio payload, if any, to queueAudio,
then answer every tool invocation in array order. Returns the new
playback cursor and the functionResponses entries sent. -/
def handleMessage (cb : ToolCallbacks) (now : ℚ) (m : LiveServerMessage)
    (cursor : ℚ) : ℚ × List FunctionResponse :=
  let cursor' :=
    match extractAudioData m with
    | some data => queueAudio now data cursor
    | none => cursor
  let responses :=
    match m.toolCall with
    | some calls => sendToolResponses cb calls
    | none => []
  (cursor', responses)

/-- Lifecycle of one platform resource reference held by the service:
null, live, or closed/stopped (the reference is kept after release;
disconnect never nulls its fields). -/
inductive ResourceState where
  | none
  | active
  | released
deriving DecidableEq

/-- The resource references a GeminiLiveService instance owns
(src/services/geminiLiveService.ts lines 113-126), together with the
playback cursor. -/
structure ServiceState where
  session : ResourceState
  inputAudioContext : ResourceState
  outputAudioContext : ResourceState
  inputSource : ResourceState
  processor : ResourceState
  mediaStream : ResourceState
  inputAnalyser : Bool
  outputAnalyser : Bool
deriving DecidableEq

/-- A freshly constructed service: every reference is null
(src/services/geminiLiveService.ts lines 113-126). -/
def initialState : ServiceState :=
  { session := .none, inputAudioContext := .none, outputAudioContext := .none,
    inputSource := .none, processor := .none, mediaStream := .none,
    inputAnalyser := false, outputAnalyser := false }

/-- Which of connect's two fallible steps fail in a given execution:
the remote handshake (client.live.connect rejecting) and microphone
acquisition (getUserMedia rejecting). -/
structure ConnectEnv where
  handshakeFails : Bool
  micFails : Bool

/-- Embedding of connect together with setupMicrophone
(src/services/geminiLiveService.ts lines 137-195 and 244-285): both
audio contexts, both analysers and the cursor reset happen first; a
rejected handshake is logged and rethrown; only then is the microphone
acquired and the capture graph built, a failure there again logged and
rethrown. Neither catch arm tears anything down, so the error carries
the state as it stood at the failing step. -/
def connect (env : ConnectEnv) (s : ServiceState) :
    Except (String × ServiceState) ServiceState :=
  let s1 := { s with inputAudioContext := .active, outputAudioContext := .active,
                     inputAnalyser := true, outputAnalyser := true }
  if env.handshakeFails then
    .error ("Failed to connect to Gemini Live", s1)
  else
    let s2 := { s1 with session := .active }
    if env.micFails then
      .error ("Microphone setup failed", s2)
    else
      .ok { s2 with mediaStream := .active, inputSource := .active, processor := .active }

/-- One close/disconnect/stop call behind optional chaining: skipped on a
null reference; on a live or already-released resource the platform
calls used by disconnect (LiveSession.close, AudioNode.disconnect,
AudioContext.close, MediaStreamTrack.stop) do not raise synchronously
(a second AudioContext.close merely returns a rejected promise that
disconnect ignores), so every case succeeds. -/
def tryClose (r : ResourceState) : Except String ResourceState :=
  match r with
  | .none => .ok .none
  | .active => .ok .released
  | .released => .ok .released

/-- The resource mapping tryClose performs when it succeeds. -/
def closeRes (r : ResourceState) : ResourceState :=
  match r with
  | .none => .none
  | .active => .released
  | .released => .released

/-- Embedding of disconnect (src/services/geminiLiveService.ts lines
339-349): close the session, disconnect the capture graph, close both
audio contexts, stop all microphone tracks, each behind optional
chaining; an exception in any step would propagate to the caller. -/
def disconnect (s : ServiceState) : Except String ServiceState := do
  let session ← tryClose s.session
  let inputSource ← tryClose s.inputSource
  let processor ← tryClose s.processor
  let inputAudioContext ← tryClose s.inputAudioContext
  let outputAudioContext ← tryClose s.outputAudioContext
  let mediaStream ← tryClose s.mediaStream
  .ok { s with session := session, inputSource := inputSource, processor := processor,
               inputAudioContext := inputAudioContext,
               outputAudioContext := outputAudioContext, mediaStream := mediaStream }

/-- The state disconnect leaves behind: every reference released, the
analyser fields untouched. -/
def releaseAll (s : ServiceState) : ServiceState :=
  { s with session := closeRes s.session, inputSource := closeRes s.inputSource,
           processor := closeRes s.processor,
           inputAudioContext := closeRes s.inputAudioContext,
           outputAudioContext := closeRes s.outputAudioContext,
           mediaStream := closeRes s.mediaStream }

/-- No resource reference is still live. -/
def allReleased (s : ServiceState) : Prop :=
  s.session ≠ .active ∧ s.inputSource ≠ .active ∧ s.processor ≠ .active ∧
  s.inputAudioContext ≠ .active ∧ s.outputAudioContext ≠ .active ∧
  s.mediaStream ≠ .active

/-- Whether a connect run succeeded. -/
def connectOk : Except (String × ServiceState) ServiceState → Bool
  | .ok _ => true
  | .error _ => false

/-- The state a failed connect run leaves behind (the successful state
otherwise). -/
def connectState : Except (String × ServiceState) ServiceState → ServiceState
  | .ok s => s
  | .error e => e.2

/-- The state connect's failed-handshake path leaves behind when starting
from a fresh instance: both audio contexts and both analysers live. -/
def handshakeFailState : ServiceState :=
  { initialState with
      inputAudioContext := .active, outputAudioContext := .active,
      inputAnalyser := true, outputAnalyser := true }

/-- Concrete callbacks for exercising the dispatch loop: the savePan
handler throws, the others succeed. -/
def demoCallbacks : ToolCallbacks where
  onSaveAadhar := fun _ => .ok ()
  onSavePan := fun _ => .error "boom"
  onVerifyDetails := fun _ => .ok "MATCH"
  onCreateDigilocker := fun _ => .ok ()

/-- Four invocations in one message: the second one's handler throws and
the fourth one's name is unrecognized. -/
def demoCalls : List FunctionCall :=
  [{ id := "1", name := "saveAadhar", args := [] },
   { id := "2", name := "savePan", args := [] },
   { id := "3", name := "verifyDetails", args := [] },
   { id := "4", name := "unknownTool", args := [] }]

/-- A tool-call message carrying the four demo invocations. -/
def demoMessage : LiveServerMessage :=
  { serverContent := none, toolCall := some demoCalls }

end GeminiLive

namespace AudioUtils

example : arrayBufferToBase64 [77, 97, 110] = "TWFu".toList := by decide

example : arrayBufferToBase64 [77] = "TQ==".toList := by decide

example : arrayBufferToBase64 [77, 97] = "TWE=".toList := by decide

example : base64ToArrayBuffer ("TWFuTQ==".toList) = some [77, 97, 110, 77] := by decide

example : base64ToArrayBuffer ("T!==".toList) = none := by decide

lemma b64Index?_b64Char : ∀ d, d < 64 → b64Index? (b64Char d) = some d := by decide

lemma b64Char_ne_pad : ∀ d, d < 64 → b64Char d ≠ '=' := by decide

lemma base64_roundtrip : ∀ b : List Nat, (∀ x ∈ b, x < 256) →
    base64ToArrayBuffer (arrayBufferToBase64 b) = some b := by
  intro b
  induction b using arrayBufferToBase64.induct with
  | case1 => intro _; rfl
  | case2 b0 =>
      intro h
      have hb0 : b0 < 256 := h b0 (by simp)
      have h0 := b64Index?_b64Char (b0 / 4) (by omega)
      have h1 := b64Index?_b64Char (b0 % 4 * 16) (by omega)
      simp [arrayBufferToBase64, base64ToArrayBuffer, h0, h1]
      omega
  | case3 b0 b1 =>
      intro h
      have hb0 : b0 < 256 := h b0 (by simp)
      have hb1 : b1 < 256 := h b1 (by simp)
      have h0 := b64Index?_b64Char (b0 / 4) (by omega)
      have h1 := b64Index?_b64Char (b0 % 4 * 16 + b1 / 16) (by omega)
      have h2 := b64Index?_b64Char (b1 % 16 * 4) (by omega)
      have hne2 := b64Char_ne_pad (b1 % 16 * 4) (by omega)
      simp [arrayBufferToBase64, base64ToArrayBuffer, h0, h1, h2, hne2]
      omega
  | case4 b0 b1 b2 rest ih =>
      intro h
      have hb0 : b0 < 256 := h b0 (by simp)
      have hb1 : b1 < 256 := h b1 (by simp)
      have hb2 : b2 < 256 := h b2 (by simp)
      have hrest : ∀ x ∈ rest, x < 256 := fun x hx => h x (by simp [hx])
      have h0 := b64Index?_b64Char (b0 / 4) (by omega)
      have h1 := b64Index?_b64Char (b0 % 4 * 16 + b1 / 16) (by omega)
      have h2 := b64Index?_b64Char (b1 % 16 * 4 + b2 / 64) (by omega)
      have h3 := b64Index?_b64Char (b2 % 64) (by omega)
      have hne2 := b64Char_ne_pad (b1 % 16 * 4 + b2 / 64) (by omega)
      have hne3 := b64Char_ne_pad (b2 % 64) (by omega)
      simp [arrayBufferToBase64, base64ToArrayBuffer, h0, h1, h2, h3, hne2, hne3,
            ih hrest]
      omega

example : downsampleTo16000 [1, 2, 3, 4] 16000 = [1, 2, 3, 4] := by decide

example : downsampleTo16000 [1, 5, 7, 9] 32000 = [1, 7] := by
  have hc : ⌈(([1, 5, 7, 9] : List ℚ).length : ℚ) / ((32000 : ℚ) / 16000)⌉₊ = 2 := by
    rw [Nat.ceil_eq_iff (by norm_num)]; norm_num
  have hi0 : interpIndex 32000 0 = 0 := by
    simp only [interpIndex]
    norm_num
  have hi1 : interpIndex 32000 1 = 2 := by
    simp only [interpIndex]
    rw [show ((1 : Nat) : ℚ) * ((32000 : ℚ) / 16000) = 2 by norm_num]
    rw [show ⌊(2 : ℚ)⌋ = 2 by norm_num]
    rfl
  simp only [downsampleTo16000, if_neg (by norm_num : (32000 : ℚ) ≠ 16000), hc]
  simp only [List.range_succ, List.range_zero, List.map, lerpSample, interpNextIndex,
    hi0, hi1]
  norm_num

lemma ceil_div_three (len : Nat) : ⌈(len : ℚ) / 3⌉₊ = (len + 2) / 3 := by
  rcases Nat.eq_zero_or_pos len with h0 | hpos
  · subst h0; norm_num
  · apply le_antisymm
    · rw [Nat.ceil_le, div_le_iff₀ (by norm_num : (0 : ℚ) < 3)]
      have h : len ≤ (len + 2) / 3 * 3 := by omega
      exact_mod_cast h
    · have hk : (len + 2) / 3 - 1 < ⌈(len : ℚ) / 3⌉₊ := by
        rw [Nat.lt_ceil, lt_div_iff₀ (by norm_num : (0 : ℚ) < 3)]
        have h : ((len + 2) / 3 - 1) * 3 < len := by omega
        exact_mod_cast h
      omega

lemma downsample_map_form (buffer : List ℚ) (sampleRate : ℚ) (hne : sampleRate ≠ 16000) :
    downsampleTo16000 buffer sampleRate =
      (List.range (⌈(buffer.length : ℚ) / (sampleRate / 16000)⌉₊)).map
        (fun i => lerpSample buffer sampleRate i) := by
  simp [downsampleTo16000, hne]

lemma interpIndex_id (i : Nat) : interpIndex 16000 i = i := by
  unfold interpIndex
  norm_num

lemma interpIndex_lt (buffer : List ℚ) (sampleRate : ℚ) (hpos : 0 < sampleRate)
    (i : Nat) (hi : (i : ℚ) < (buffer.length : ℚ) / (sampleRate / 16000)) :
    interpIndex sampleRate i < buffer.length := by
  have hratio : 0 < sampleRate / 16000 := by positivity
  have h2 : (i : ℚ) * (sampleRate / 16000) < buffer.length := by
    rw [lt_div_iff₀ hratio] at hi
    exact hi
  have hoff : 0 ≤ (i : ℚ) * (sampleRate / 16000) := by positivity
  have hfl : ⌊(i : ℚ) * (sampleRate / 16000)⌋ < (buffer.length : Int) :=
    Int.floor_lt.mpr (by exact_mod_cast h2)
  have hfl0 : 0 ≤ ⌊(i : ℚ) * (sampleRate / 16000)⌋ := Int.floor_nonneg.mpr hoff
  unfold interpIndex
  omega

end AudioUtils

open AudioUtils GeminiLive

/-- C4: for every byte sequence b, including the empty sequence, decoding
the transport encoding of b reproduces b exactly:
base64ToArrayBuffer applied to arrayBufferToBase64 of b yields b. -/
theorem transport_encode_decode_id (b : List Nat) (h : ∀ x ∈ b, x < 256) :
    base64ToArrayBuffer (arrayBufferToBase64 b) = some b :=
  base64_roundtrip b h

theorem transport_encode_decode_id_witness :
    (∀ x ∈ [0, 255, 77, 1, 128], x < 256) ∧
    base64ToArrayBuffer (arrayBufferToBase64 [0, 255, 77, 1, 128]) =
      some [0, 255, 77, 1, 128] :=
  ⟨by decide, transport_encode_decode_id [0, 255, 77, 1, 128] (by decide)⟩

/-- C3: scheduling a decodable chunk of duration d when the output clock
reads now snaps the cursor to now if it fell behind (the chunk starts at
now and the cursor becomes now + d), otherwise starts the chunk at the
cursor and advances it to cursor + d; the chunk ends exactly where the
new cursor lands and the new cursor is at or after the clock, so chunks
play back-to-back in arrival order. -/
theorem playback_schedule_snap_advance (cursor now d : ℚ) (hd : 0 ≤ d) :
    (cursor < now → scheduleChunk cursor now d = (now, now + d)) ∧
    (¬ cursor < now → scheduleChunk cursor now d = (cursor, cursor + d)) ∧
    (scheduleChunk cursor now d).2 = (scheduleChunk cursor now d).1 + d ∧
    now ≤ (scheduleChunk cursor now d).1 ∧
    now ≤ (scheduleChunk cursor now d).2 := by
  by_cases h : cursor < now
  · have hs : scheduleChunk cursor now d = (now, now + d) := by
      simp [scheduleChunk, if_pos h]
    rw [hs]
    exact ⟨fun _ => rfl, fun hc => absurd h hc, rfl, le_refl now,
      show now ≤ now + d by linarith⟩
  · have hs : scheduleChunk cursor now d = (cursor, cursor + d) := by
      simp [scheduleChunk, if_neg h]
    have hn : now ≤ cursor := not_lt.mp h
    rw [hs]
    exact ⟨fun hc => absurd hc h, fun _ => rfl, rfl, hn,
      show now ≤ cursor + d by linarith⟩

theorem playback_schedule_snap_advance_witness :
    scheduleChunk 3 5 2 = (5, 5 + 2) ∧
    scheduleChunk 9 5 2 = (9, 9 + 2) ∧
    (5 : ℚ) ≤ (scheduleChunk 3 5 2).2 :=
  ⟨(playback_schedule_snap_advance 3 5 2 (by norm_num)).1 (by norm_num),
   (playback_schedule_snap_advance 9 5 2 (by norm_num)).2.1 (by norm_num),
   (playback_schedule_snap_advance 3 5 2 (by norm_num)).2.2.2.2⟩

/-- C9: a chunk whose data fails to decode is dropped by queueAudio's
per-chunk catch: the playback cursor is unchanged, and any surrounding
chunk sequence yields the same cursor as if the malformed chunk had not
arrived, so subsequent chunks are unaffected and the session continues. -/
theorem malformed_chunk_dropped (now : ℚ) (data : List Char)
    (hbad : decodeChunk data = none) :
    (∀ cursor : ℚ, queueAudio now data cursor = cursor) ∧
    ∀ pre post : List (ℚ × List Char), ∀ cursor : ℚ,
      processChunks (pre ++ (now, data) :: post) cursor =
        processChunks (pre ++ post) cursor := by
  have hq : ∀ cursor : ℚ, queueAudio now data cursor = cursor := by
    intro cursor
    unfold queueAudio
    rw [hbad]
  refine ⟨hq, ?_⟩
  intro pre
  induction pre with
  | nil =>
      intro post cursor
      simp [processChunks, hq]
  | cons hd tl ih =>
      intro post cursor
      simp [processChunks, ih]

theorem malformed_chunk_dropped_witness :
    decodeChunk ("T!==".toList) = none ∧
    queueAudio 2 ("T!==".toList) 7 = 7 ∧
    processChunks [(0, "TWE=".toList), (2, "T!==".toList), (4, "TWFu".toList)] 7 =
      processChunks [(0, "TWE=".toList), (4, "TWFu".toList)] 7 :=
  ⟨by decide,
   (malformed_chunk_dropped 2 ("T!==".toList) (by decide)).1 7,
   (malformed_chunk_dropped 2 ("T!==".toList) (by decide)).2
     [(0, "TWE=".toList)] [(4, "TWFu".toList)] 7⟩

/-- C10: only the first part of the model turn is consulted for audio:
the payload handed to the playback path is exactly the head part's
inlineData, and two messages that differ only in later parts are handled
identically, so audio carried in later parts is silently dropped. -/
theorem only_first_part_audio_forwarded (cb : ToolCallbacks) (now cursor : ℚ)
    (tc : Option (List FunctionCall)) (p : Part) (rest rest' : List Part) :
    extractAudioData ⟨some ⟨some ⟨some (p :: rest)⟩⟩, tc⟩ =
      p.inlineData.bind InlineData.data ∧
    handleMessage cb now ⟨some ⟨some ⟨some (p :: rest)⟩⟩, tc⟩ cursor =
      handleMessage cb now ⟨some ⟨some ⟨some (p :: rest')⟩⟩, tc⟩ cursor := by
  constructor
  · cases hp : p.inlineData <;> simp [extractAudioData, hp]
  · rfl

/-- C6: resampling at source rate 16000 returns the input sequence
itself; at any other rate the output length is the ceiling of the input
length divided by sourceRate/16000 — for 48000 that is ceil(length/3) —
and each output element is the linear interpolation of the two nearest
input samples at source offset i * ratio. -/
theorem resample_identity_length_lerp (buffer : List ℚ) (sampleRate : ℚ) :
    downsampleTo16000 buffer 16000 = buffer ∧
    (sampleRate ≠ 16000 →
      (downsampleTo16000 buffer sampleRate).length =
        ⌈(buffer.length : ℚ) / (sampleRate / 16000)⌉₊ ∧
      ∀ i, i < (downsampleTo16000 buffer sampleRate).length →
        (downsampleTo16000 buffer sampleRate).getD i 0 =
          lerpSample buffer sampleRate i) ∧
    (downsampleTo16000 buffer 48000).length = (buffer.length + 2) / 3 := by
  refine ⟨by simp [downsampleTo16000], ?_, ?_⟩
  · intro hne
    have heq := downsample_map_form buffer sampleRate hne
    constructor
    · rw [heq, List.length_map, List.length_range]
    · intro i hi
      rw [heq] at hi ⊢
      rw [List.getD_eq_getElem _ _ hi]
      simp
  · have h48 : ((48000 : ℚ) / 16000) = 3 := by norm_num
    rw [downsample_map_form buffer 48000 (by norm_num), List.length_map,
        List.length_range, h48, ceil_div_three]

theorem resample_identity_length_lerp_witness :
    (downsampleTo16000 [1, 5, 7, 9] 32000).length =
      ⌈(([1, 5, 7, 9] : List ℚ).length : ℚ) / ((32000 : ℚ) / 16000)⌉₊ ∧
    (downsampleTo16000 [1, 5, 7, 9] 32000).getD 1 0 =
      lerpSample [1, 5, 7, 9] 32000 1 :=
  ⟨((resample_identity_length_lerp [1, 5, 7, 9] 32000).2.1 (by norm_num)).1,
   ((resample_identity_length_lerp [1, 5, 7, 9] 32000).2.1 (by norm_num)).2 1 (by
      rw [downsample_map_form [1, 5, 7, 9] 32000 (by norm_num), List.length_map,
          List.length_range, Nat.lt_ceil]
      norm_num)⟩

/-- C7: for every input block (including the empty one) and every
positive source rate, each source index read during interpolation — the
floored source offset and its clamped successor — lies inside the
input's valid index range, so no out-of-bounds read occurs. -/
theorem resample_reads_in_bounds (buffer : List ℚ) (sampleRate : ℚ)
    (hpos : 0 < sampleRate) :
    ∀ i, i < (downsampleTo16000 buffer sampleRate).length →
      interpIndex sampleRate i < buffer.length ∧
      interpNextIndex buffer sampleRate i < buffer.length := by
  intro i hi
  by_cases hne : sampleRate = 16000
  · subst hne
    have hlen : downsampleTo16000 buffer 16000 = buffer := by
      simp [downsampleTo16000]
    rw [hlen] at hi
    have hidx : interpIndex 16000 i = i := interpIndex_id i
    refine ⟨by rw [hidx]; exact hi, ?_⟩
    unfold interpNextIndex
    rw [hidx]
    omega
  · rw [downsample_map_form buffer sampleRate hne, List.length_map,
        List.length_range] at hi
    have hi' : (i : ℚ) < (buffer.length : ℚ) / (sampleRate / 16000) := Nat.lt_ceil.mp hi
    have hidx := interpIndex_lt buffer sampleRate hpos i hi'
    refine ⟨hidx, ?_⟩
    unfold interpNextIndex
    omega

theorem resample_reads_in_bounds_witness :
    interpIndex 32000 1 < ([1, 5, 7, 9] : List ℚ).length ∧
    interpNextIndex [1, 5, 7, 9] 32000 1 < ([1, 5, 7, 9] : List ℚ).length :=
  resample_reads_in_bounds [1, 5, 7, 9] 32000 (by norm_num) 1 (by
    rw [downsample_map_form [1, 5, 7, 9] 32000 (by norm_num), List.length_map,
        List.length_range, Nat.lt_ceil]
    norm_num)

/-- C8: disconnect never raises — on a never-connected instance, on any
state, and when called twice in a row — and afterwards none of the held
resources (remote session, capture graph, both audio contexts,
microphone tracks) is still live. -/
theorem disconnect_never_raises_releases_all (s : ServiceState) :
    disconnect s = .ok (releaseAll s) ∧
    allReleased (releaseAll s) ∧
    disconnect (releaseAll s) = .ok (releaseAll s) ∧
    disconnect initialState = .ok initialState := by
  have h1 : ∀ r, tryClose r = .ok (closeRes r) := by
    intro r; cases r <;> rfl
  have hci : ∀ r, closeRes (closeRes r) = closeRes r := by
    intro r; cases r <;> rfl
  have hna : ∀ r, closeRes r ≠ ResourceState.active := by
    intro r; cases r <;> simp [closeRes]
  refine ⟨?_, ⟨hna _, hna _, hna _, hna _, hna _, hna _⟩, ?_, rfl⟩
  · simp only [disconnect, h1, releaseAll]
    rfl
  · simp only [disconnect, h1, releaseAll, hci]
    rfl

/-- C2 counterexample: a failed handshake from a fresh instance rejects
connect, yet both audio contexts created before the failing step are
still live in the state the run leaves behind, so a partial session
remains observable (the analyser fields are even public). -/
theorem connect_failure_keeps_contexts_counterexample :
    connect { handshakeFails := true, micFails := false } initialState =
      .error ("Failed to connect to Gemini Live", handshakeFailState) ∧
    handshakeFailState.inputAudioContext = ResourceState.active ∧
    handshakeFailState.outputAudioContext = ResourceState.active ∧
    ¬ allReleased handshakeFailState := by
  refine ⟨by rfl, by rfl, by rfl, ?_⟩
  intro h
  exact h.2.2.2.1 rfl

/-- C2 amended: every failing connect run (handshake or microphone step)
propagates an error to the caller, but the state at the failure still
holds both audio contexts live — nothing acquired before the failing
step is torn down. -/
theorem connect_failure_propagates_keeps_state (env : ConnectEnv)
    (s : ServiceState)
    (hfail : env.handshakeFails = true ∨ env.micFails = true) :
    connectOk (connect env s) = false ∧
    (connectState (connect env s)).inputAudioContext = ResourceState.active ∧
    (connectState (connect env s)).outputAudioContext = ResourceState.active := by
  rcases env with ⟨hs, mic⟩
  cases hs <;> cases mic <;> simp_all [connect, connectOk, connectState]

theorem connect_failure_propagates_keeps_state_witness :
    connectOk (connect { handshakeFails := false, micFails := true } initialState) =
      false ∧
    (connectState (connect { handshakeFails := false, micFails := true }
      initialState)).inputAudioContext = ResourceState.active ∧
    (connectState (connect { handshakeFails := false, micFails := true }
      initialState)).outputAudioContext = ResourceState.active :=
  connect_failure_propagates_keeps_state
    { handshakeFails := false, micFails := true } initialState (Or.inr rfl)

/-- C1: a tool-call message of n invocations is answered with exactly n
correlated responses, built and sent in array order; each response
carries the invocation's id and name; a throwing handler yields the
error payload rather than a missing entry; an invocation whose name is
none of saveAadhar/savePan/verifyDetails/createDigilocker gets the
generic ok result. -/
theorem tool_call_responses (cb : ToolCallbacks) (now cursor : ℚ)
    (m : LiveServerMessage) (calls : List FunctionCall)
    (hm : m.toolCall = some calls) (call : FunctionCall) :
    (handleMessage cb now m cursor).2 = sendToolResponses cb calls ∧
    (sendToolResponses cb calls).length = calls.length ∧
    (∀ i, ∀ h1 : i < (sendToolResponses cb calls).length, ∀ h2 : i < calls.length,
      (sendToolResponses cb calls).get ⟨i, h1⟩ =
        respondToCall cb (calls.get ⟨i, h2⟩)) ∧
    (respondToCall cb call).id = call.id ∧
    (respondToCall cb call).name = call.name ∧
    (call.name ≠ "saveAadhar" → call.name ≠ "savePan" → call.name ≠ "verifyDetails" →
      call.name ≠ "createDigilocker" →
      (respondToCall cb call).response = .genericOk) ∧
    (∀ er, call.name = "saveAadhar" → cb.onSaveAadhar call.args = .error er →
      (respondToCall cb call).response = .error "Failed to execute tool") ∧
    (∀ er, call.name = "savePan" → cb.onSavePan call.args = .error er →
      (respondToCall cb call).response = .error "Failed to execute tool") ∧
    (∀ er, call.name = "verifyDetails" → cb.onVerifyDetails call.args = .error er →
      (respondToCall cb call).response = .error "Failed to execute tool") ∧
    (∀ er, call.name = "createDigilocker" → cb.onCreateDigilocker call.args = .error er →
      (respondToCall cb call).response = .error "Failed to execute tool") := by
  refine ⟨by simp [handleMessage, hm], by simp [sendToolResponses], ?_, rfl, rfl,
    ?_, ?_, ?_, ?_, ?_⟩
  · intro i h1 h2
    simp [sendToolResponses, List.get_eq_getElem]
  · intro hn1 hn2 hn3 hn4
    simp [respondToCall, hn1, hn2, hn3, hn4]
  · intro er hname herr
    simp [respondToCall, hname, herr]
  · intro er hname herr
    simp [respondToCall, hname, herr]
  · intro er hname herr
    simp [respondToCall, hname, herr]
  · intro er hname herr
    simp [respondToCall, hname, herr]

theorem tool_call_responses_witness :
    (handleMessage demoCallbacks 0 demoMessage 0).2 =
      sendToolResponses demoCallbacks demoCalls ∧
    (sendToolResponses demoCallbacks demoCalls).length = demoCalls.length ∧
    (respondToCall demoCallbacks { id := "2", name := "savePan", args := [] }).response =
      ResponseResult.error "Failed to execute tool" ∧
    (respondToCall demoCallbacks
      { id := "4", name := "unknownTool", args := [] }).response =
      ResponseResult.genericOk := by
  obtain ⟨h1, h2, -, -, -, -, -, h8, -, -⟩ :=
    tool_call_responses demoCallbacks 0 0 demoMessage demoCalls rfl
      { id := "2", name := "savePan", args := [] }
  obtain ⟨-, -, -, -, -, h6, -, -, -, -⟩ :=
    tool_call_responses demoCallbacks 0 0 demoMessage demoCalls rfl
      { id := "4", name := "unknownTool", args := [] }
  exact ⟨h1, h2, h8 "boom" rfl rfl,
    h6 (by decide) (by decide) (by decide) (by decide)⟩
